import Mathlib

/-!
Verification development for the near-Earth-objects query engine
(models.py, filters.py, extract.py of the repository).

The Python code is shallowly embedded:
 - Python floats are `FloatVal`: either the not-a-number sentinel or an
   exact rational (the comparisons the filters perform are exact, so a
   rational carrier is faithful for them; IEEE comparison semantics for
   the NaN case -- every comparison involving NaN is false -- are kept).
 - Python exceptions are the `PyExc` type; fallible code returns
   `Except PyExc`.
 - A constructor receiving keyword arguments becomes a function on a
   structure of `Option` fields (`none` = the key was absent, which in
   Python raises KeyError on access).
 - The helpers module (cd_to_datetime, datetime_to_str) and database.py
   (NEODatabase.query) are not part of the sources being verified; they
   are modelled from the specification and marked as such.
-/

namespace NeoQuery

/-- The Python exceptions that the embedded code can raise. -/
inductive PyExc where
  | keyError
  | valueError
  | typeError
  | attributeError
  | unsupportedCriterion
deriving DecidableEq

/-- A Python float: the not-a-number sentinel, or an exact numeric value.
The data never exercises infinities, which are therefore not modelled. -/
inductive FloatVal where
  | nan
  | num (q : ℚ)
deriving DecidableEq

/-- Python float equality: any comparison involving NaN is false. -/
def FloatVal.feq : FloatVal → FloatVal → Bool
  | .num a, .num b => a = b
  | _, _ => false

/-- Python float less-or-equal: any comparison involving NaN is false. -/
def FloatVal.fle : FloatVal → FloatVal → Bool
  | .num a, .num b => a ≤ b
  | _, _ => false

/-- Python float greater-or-equal: any comparison involving NaN is false. -/
def FloatVal.fge : FloatVal → FloatVal → Bool
  | .num a, .num b => b ≤ a
  | _, _ => false

/-- The Python values that flow through the constructors: strings (CSV
fields and JSON strings), floats (JSON numbers) and None (JSON null). -/
inductive PyVal where
  | pynone
  | pystr (s : String)
  | pyfloat (v : FloatVal)
deriving DecidableEq

/-- Python == on the values of our universe: same-type comparison, and
cross-type comparisons are false (as they are for str/float/None). -/
def pyEq : PyVal → PyVal → Bool
  | .pynone, .pynone => true
  | .pystr a, .pystr b => a = b
  | .pyfloat a, .pyfloat b => a.feq b
  | _, _ => false

/-- The str() builtin on our value universe.  Only strings reach the one
call site (str of a designation), so the rendering of the other cases is
schematic. -/
def pyStrBuiltin : PyVal → String
  | .pynone => "None"
  | .pystr s => s
  | .pyfloat .nan => "nan"
  | .pyfloat (.num q) => toString q

/-- Numeric value of a list of decimal digit characters. -/
def digitsVal : List Char → Nat
  | [] => 0
  | c :: cs => (c.toNat - '0'.toNat) * 10 ^ cs.length + digitsVal cs

/-- A nonempty all-digit character list. -/
def allDigits (l : List Char) : Bool :=
  !l.isEmpty && l.all Char.isDigit

/-- Parse the mantissa of a float literal (digits with an optional single
decimal point, at least one digit overall) into a numerator and the
number of fractional digits, exactly representing numerator / 10^k. -/
def parseMantissa (l : List Char) : Option (ℤ × ℕ) :=
  match l.splitOn '.' with
  | [ip] => if allDigits ip then some ((digitsVal ip : ℤ), 0) else none
  | [ip, fp] =>
    if (allDigits ip || ip.isEmpty) && (allDigits fp || fp.isEmpty)
        && !(ip.isEmpty && fp.isEmpty) then
      some ((digitsVal (ip ++ fp) : ℤ), fp.length)
    else none
  | _ => none

/-- Strip one leading sign character, returning the sign and the rest. -/
def splitSign : List Char → Bool × List Char
  | '-' :: cs => (true, cs)
  | '+' :: cs => (false, cs)
  | cs => (false, cs)

/-- Combine a parsed mantissa with a parsed exponent part into the exact
rational value of the literal. -/
def applyExponent (m : ℤ × ℕ) (sd : Bool × List Char) : Option ℚ :=
  if allDigits sd.2 then
    some (if sd.1 then mkRat m.1 (10 ^ (m.2 + digitsVal sd.2))
          else mkRat (m.1 * 10 ^ digitsVal sd.2) (10 ^ m.2))
  else none

/-- Parse the body of a Python float literal: optional sign, mantissa,
optional decimal exponent.  The "nan" literal is accepted; infinities are
not modelled (the data set never contains them). -/
def parseFloatChars (l : List Char) : Option FloatVal :=
  let (neg, body) := splitSign l
  if body.map Char.toLower = String.toList "nan" then some .nan
  else
    let withExp : Option ℚ :=
      match body.splitOn 'e' with
      | [m] =>
        match m.splitOn 'E' with
        | [m0] => (parseMantissa m0).map (fun p => mkRat p.1 (10 ^ p.2))
        | [m0, e0] =>
          match parseMantissa m0 with
          | some p => applyExponent p (splitSign e0)
          | none => none
        | _ => none
      | [m0, e0] =>
        match parseMantissa m0 with
        | some p => applyExponent p (splitSign e0)
        | none => none
      | _ => none
    withExp.map (fun q => .num (if neg then -q else q))

/-- The whitespace characters Python strips around a float literal. -/
def isPySpace (c : Char) : Bool :=
  c = ' ' || c = '\t' || c = '\n' || c = '\r' || c = '\x0b' || c = '\x0c'

/-- Strip surrounding whitespace from a character list. -/
def trimChars (l : List Char) : List Char :=
  ((l.dropWhile isPySpace).reverse.dropWhile isPySpace).reverse

/-- Python float(string): trims surrounding whitespace, then parses a
float literal; failure is a ValueError. -/
def pyParseFloat (s : String) : Option FloatVal :=
  parseFloatChars (trimChars s.toList)

/-- The float() builtin: identity on floats, literal parsing on strings
(ValueError on failure), TypeError on None. -/
def pyFloat : PyVal → Except PyExc FloatVal
  | .pyfloat v => .ok v
  | .pystr s =>
    match pyParseFloat s with
    | some v => .ok v
    | none => .error .valueError
  | .pynone => .error .typeError

/-- A timezone-naive timestamp, to minute precision (the precision of the
input data). -/
structure DateTime where
  year : Nat
  month : Nat
  day : Nat
  hour : Nat
  minute : Nat
deriving DecidableEq

/-- A calendar date, the result of discarding a timestamp's time of day. -/
structure Date where
  year : Nat
  month : Nat
  day : Nat
deriving DecidableEq

/-- The date() method of a datetime: discard the time-of-day component. -/
def DateTime.date (t : DateTime) : Date :=
  { year := t.year, month := t.month, day := t.day }

/-- Python date ordering: lexicographic on (year, month, day). -/
def Date.leB (a b : Date) : Bool :=
  if a.year ≠ b.year then a.year < b.year
  else if a.month ≠ b.month then a.month < b.month
  else a.day ≤ b.day

/-- Three-letter month abbreviation of the compact NASA date format. -/
def monthOfAbbrev (cs : List Char) : Option Nat :=
  if cs = "Jan".toList then some 1
  else if cs = "Feb".toList then some 2
  else if cs = "Mar".toList then some 3
  else if cs = "Apr".toList then some 4
  else if cs = "May".toList then some 5
  else if cs = "Jun".toList then some 6
  else if cs = "Jul".toList then some 7
  else if cs = "Aug".toList then some 8
  else if cs = "Sep".toList then some 9
  else if cs = "Oct".toList then some 10
  else if cs = "Nov".toList then some 11
  else if cs = "Dec".toList then some 12
  else none

/-- Parse a nonempty all-digit field. -/
def natField (cs : List Char) : Option Nat :=
  if allDigits cs then some (digitsVal cs) else none

/-- Modelled from the spec: helpers.cd_to_datetime is not among the
sources under verification.  The spec describes the time field as a
timezone-naive UTC timestamp parsed from a compact date-time string of
the form 2020-Jan-01 00:00, where absent or unparseable input yields an
absent value and must not abort loading; accordingly the model is total
and returns none on anything it cannot parse. -/
def cd_to_datetime (v : PyVal) : Option DateTime :=
  match v with
  | .pystr s =>
    match s.toList.splitOn ' ' with
    | [d, t] =>
      match d.splitOn '-', t.splitOn ':' with
      | [y, mon, dy], [h, mi] =>
        match natField y, monthOfAbbrev mon, natField dy,
            natField h, natField mi with
        | some yn, some mn, some dn, some hn, some min_ =>
          some { year := yn, month := mn, day := dn, hour := hn, minute := min_ }
        | _, _, _, _, _ => none
      | _, _ => none
    | _ => none
  | _ => none

/-- Modelled from the spec: helpers.datetime_to_str is not among the
sources under verification.  The spec (section 6) says timestamps are
serialized to minute precision with no seconds; on an absent timestamp
the attribute access inside the helper fails, which surfaces as an
AttributeError. -/
def datetime_to_str (t : Option DateTime) : Except PyExc String :=
  match t with
  | none => .error .attributeError
  | some dt =>
    .ok (toString dt.year ++ "-" ++ toString dt.month ++ "-" ++ toString dt.day
      ++ " " ++ toString dt.hour ++ ":" ++ toString dt.minute)

/-- A near-Earth object record (models.py, class NearEarthObject).
The Python object graph is cyclic once linking has run (an approach's
neo refers back to an NEO whose approaches list contains the approach),
which a finite Lean value cannot represent; the NEO side therefore holds
its approaches as load-order indices.  The linking pass itself lives in
database.py, outside the verified sources, and no claim depends on a
populated approaches list. -/
structure NearEarthObject where
  designation : Option String
  name : Option PyVal
  diameter : FloatVal
  hazardous : Bool
  approaches : List Nat
deriving DecidableEq

/-- The keyword arguments reaching NearEarthObject.__init__ (none = the
key was absent from info, so accessing it raises KeyError). -/
structure NeoInfo where
  designation : Option PyVal
  name : Option PyVal
  diameter : Option PyVal
  hazardous : Option PyVal

/-- The designation try/except of NearEarthObject.__init__: str(info)
on success, None on KeyError (absent key). -/
def neoDesignationOf (o : Option PyVal) : Option String :=
  match o with
  | some v => some (pyStrBuiltin v)
  | none => none

/-- The name try/except of NearEarthObject.__init__: an empty string is
normalized to None, an absent key (KeyError) gives None. -/
def neoNameOf (o : Option PyVal) : Option PyVal :=
  match o with
  | some v => if pyEq v (.pystr "") then none else some v
  | none => none

/-- The diameter try/except of NearEarthObject.__init__: float(info)
with KeyError (absent) and ValueError (unparseable) giving the NaN
default; any other exception, e.g. the TypeError of float(None), is not
caught and propagates. -/
def neoDiameterOf (o : Option PyVal) : Except PyExc FloatVal :=
  match o with
  | some v =>
    match pyFloat v with
    | .ok f => .ok f
    | .error .valueError => .ok .nan
    | .error e => .error e
  | none => .ok .nan

/-- The hazardous try/except of NearEarthObject.__init__: comparison
with the single-character flag Y, an absent key giving False. -/
def neoHazardousOf (o : Option PyVal) : Bool :=
  match o with
  | some v => pyEq v (.pystr "Y")
  | none => false

/-- NearEarthObject.__init__ (models.py lines 33-68): the four
try/except blocks in order, then an empty approach collection. -/
def NearEarthObject.init (info : NeoInfo) : Except PyExc NearEarthObject := do
  let dia ← neoDiameterOf info.diameter
  pure { designation := neoDesignationOf info.designation,
         name := neoNameOf info.name, diameter := dia,
         hazardous := neoHazardousOf info.hazardous, approaches := [] }

/-- A close-approach record (models.py, class CloseApproach).  Attribute
existence is modelled explicitly where the constructor's two branches
create different attributes:
 - the _designation field stands for the private _designation
   attribute (none = the attribute was never created);
 - the designation field stands for the public designation attribute the
   KeyError branch creates instead (none = never created, some .pynone =
   created holding None). -/
structure CloseApproach where
  _designation : Option String
  designation : Option PyVal
  time : Option DateTime
  distance : Option FloatVal
  velocity : Option FloatVal
  neo : Option NearEarthObject
deriving DecidableEq

/-- The keyword arguments reaching CloseApproach.__init__. -/
structure ApproachInfo where
  designation : Option PyVal
  time : Option PyVal
  distance : Option PyVal
  velocity : Option PyVal

/-- The designation try/except of CloseApproach.__init__: on success it
assigns the private _designation attribute (first component); the
KeyError branch instead creates a public designation attribute holding
None (second component), leaving _designation unset. -/
def cappDesignationOf (o : Option PyVal) : Option String × Option PyVal :=
  match o with
  | some v => (some (pyStrBuiltin v), none)
  | none => (none, some .pynone)

/-- The time try/except of CloseApproach.__init__: cd_to_datetime on the
value, an absent key (KeyError) giving None.  Only KeyError is caught;
the modelled helper is total, so in the model this step never raises. -/
def cappTimeOf (o : Option PyVal) : Option DateTime :=
  match o with
  | some v => cd_to_datetime v
  | none => none

/-- The distance try/except of CloseApproach.__init__: float(info) with
only KeyError (absent key) caught, so a ValueError or TypeError from the
conversion propagates. -/
def cappDistanceOf (o : Option PyVal) : Except PyExc (Option FloatVal) :=
  match o with
  | some v =>
    match pyFloat v with
    | .ok f => .ok (some f)
    | .error e => .error e
  | none => .ok none

/-- The velocity try/except of CloseApproach.__init__: float(info) with
KeyError (absent) and TypeError (e.g. a None value) caught, both giving
None, so a ValueError from the conversion propagates. -/
def cappVelocityOf (o : Option PyVal) : Except PyExc (Option FloatVal) :=
  match o with
  | some v =>
    match pyFloat v with
    | .ok f => .ok (some f)
    | .error .typeError => .ok none
    | .error e => .error e
  | none => .ok none

/-- CloseApproach.__init__ (models.py lines 106-137): the four
try/except blocks in order (only the distance and velocity ones can
raise), then the neo reference initialized to None, to be replaced later
by database linking. -/
def CloseApproach.init (info : ApproachInfo) : Except PyExc CloseApproach := do
  let dist ← cappDistanceOf info.distance
  let vel ← cappVelocityOf info.velocity
  pure { _designation := (cappDesignationOf info.designation).1,
         designation := (cappDesignationOf info.designation).2,
         time := cappTimeOf info.time,
         distance := dist, velocity := vel, neo := none }

/-- Schematic rendering of a float for string interpolation (the claims
only concern whether building a string representation raises, so the
digit-exact Python formatting is not reproduced). -/
def renderFloat : FloatVal → String
  | .nan => "nan"
  | .num q => toString q

/-- Rendering of an optional float under a .2f format specifier: Python
raises TypeError when the value is None. -/
def formatFloat2f : Option FloatVal → Except PyExc String
  | none => .error .typeError
  | some f => .ok (renderFloat f)

/-- The time_str property (models.py lines 139-153): datetime_to_str on
the time attribute. -/
def CloseApproach.time_str (c : CloseApproach) : Except PyExc String :=
  datetime_to_str c.time

/-- CloseApproach.__str__ (models.py lines 155-161).  The interpolated
expressions are evaluated left to right: the private _designation
attribute first (an AttributeError if that attribute was never created),
then the distance under .2f (TypeError when None), then time_str
(AttributeError when time is None), then velocity (str of None is fine),
then distance again. -/
def CloseApproach.str_ (c : CloseApproach) : Except PyExc String := do
  let d ←
    match c._designation with
    | some s => pure s
    | none => throw PyExc.attributeError
  let dist ← formatFloat2f c.distance
  let ts ← c.time_str
  let vel :=
    match c.velocity with
    | some f => renderFloat f
    | none => "None"
  pure ("NEO " ++ d ++ ", with a diameter " ++ dist
    ++ ", approached earth at " ++ ts ++ " traveling at a velocity of "
    ++ vel ++ " at a distance of " ++ dist)

/-- The comparators create_filters draws from the operator module. -/
inductive CmpOp where
  | eq
  | ge
  | le
deriving DecidableEq

/-- The attribute names create_filters passes to ApproachFilter (always
the literal strings distance and velocity), as a closed enumeration. -/
inductive ApproachAttr where
  | distance
  | velocity
deriving DecidableEq

/-- The attribute names create_filters passes to NeoFilter (always the
literal strings diameter and hazardous), as a closed enumeration. -/
inductive NeoAttr where
  | diameter
  | hazardous
deriving DecidableEq

/-- The values a filter extracts or compares against: a calendar date, a
float, a bool, or Python None (an absent distance or velocity). -/
inductive FilterVal where
  | vnone
  | vdate (d : Date)
  | vfloat (f : FloatVal)
  | vbool (b : Bool)
deriving DecidableEq

/-- Numeric reading of a filter value, for Python's numeric comparisons
(a bool is the number 0 or 1); none for non-numeric values. -/
def FilterVal.toNum : FilterVal → Option FloatVal
  | .vfloat f => some f
  | .vbool b => some (.num (if b then 1 else 0))
  | _ => none

/-- Python == on filter values: dates compare structurally, numerics
(floats and bools) compare numerically, None equals only None, all other
cross-type comparisons are false. -/
def fvEq (a b : FilterVal) : Bool :=
  match a, b with
  | .vdate x, .vdate y => x = y
  | .vnone, .vnone => true
  | _, _ =>
    match a.toNum, b.toNum with
    | some x, some y => x.feq y
    | _, _ => false

/-- Application of an operator-module comparator, Python style: == is
total; >= and <= work on two dates or two numerics and raise TypeError
otherwise (in particular when one side is None). -/
def applyCmp : CmpOp → FilterVal → FilterVal → Except PyExc Bool
  | .eq, a, b => .ok (fvEq a b)
  | .ge, .vdate x, .vdate y => .ok (Date.leB y x)
  | .ge, a, b =>
    match a.toNum, b.toNum with
    | some x, some y => .ok (x.fge y)
    | _, _ => .error .typeError
  | .le, .vdate x, .vdate y => .ok (Date.leB x y)
  | .le, a, b =>
    match a.toNum, b.toNum with
    | some x, some y => .ok (x.fle y)
    | _, _ => .error .typeError

/-- The filter class hierarchy of filters.py as a closed datatype: the
base AttributeFilter (whose get is not specialized), DateFilter,
ApproachFilter and NeoFilter, each holding the comparator and reference
value given to the AttributeFilter constructor, the latter two also the
attribute name given to theirs. -/
inductive Filter where
  | base (op : CmpOp) (value : FilterVal)
  | dateF (op : CmpOp) (value : FilterVal)
  | approachF (op : CmpOp) (value : FilterVal) (attr : ApproachAttr)
  | neoF (op : CmpOp) (value : FilterVal) (attr : NeoAttr)
deriving DecidableEq

/-- The value of a distance or velocity attribute as seen by a filter:
Python None when absent. -/
def optFloatVal : Option FloatVal → FilterVal
  | none => .vnone
  | some f => .vfloat f

/-- The get method (filters.py lines 63-73, 84-92, 111-118, 137-144):
 - the base AttributeFilter raises UnsupportedCriterionError;
 - DateFilter returns approach.time.date(), an AttributeError when the
   time attribute is None;
 - ApproachFilter returns getattr(approach, attr);
 - NeoFilter returns getattr(approach.neo, attr), an AttributeError when
   the neo attribute is still None. -/
def Filter.get (f : Filter) (a : CloseApproach) : Except PyExc FilterVal :=
  match f with
  | .base _ _ => .error .unsupportedCriterion
  | .dateF _ _ =>
    match a.time with
    | some t => .ok (.vdate t.date)
    | none => .error .attributeError
  | .approachF _ _ attr =>
    match attr with
    | .distance => .ok (optFloatVal a.distance)
    | .velocity => .ok (optFloatVal a.velocity)
  | .neoF _ _ attr =>
    match a.neo with
    | none => .error .attributeError
    | some n =>
      match attr with
      | .diameter => .ok (.vfloat n.diameter)
      | .hazardous => .ok (.vbool n.hazardous)

/-- The comparator stored in a filter. -/
def Filter.op : Filter → CmpOp
  | .base op _ => op
  | .dateF op _ => op
  | .approachF op _ _ => op
  | .neoF op _ _ => op

/-- The reference value stored in a filter. -/
def Filter.value : Filter → FilterVal
  | .base _ v => v
  | .dateF _ v => v
  | .approachF _ v _ => v
  | .neoF _ v _ => v

/-- AttributeFilter.__call__ (filters.py lines 59-61): evaluate
self.op(self.get(approach), self.value) -- the extraction runs first and
its exception propagates before the comparator is applied; the reference
value is the right-hand side. -/
def Filter.call (f : Filter) (a : CloseApproach) : Except PyExc Bool := do
  let x ← f.get a
  applyCmp f.op x f.value

/-- The arguments of create_filters, every one defaulting to None
(dates for the date criteria, floats for the numeric ones, a bool for
hazardous -- the types the command-line layer supplies). -/
structure FilterOptions where
  date : Option Date := none
  start_date : Option Date := none
  end_date : Option Date := none
  distance_min : Option FloatVal := none
  distance_max : Option FloatVal := none
  velocity_min : Option FloatVal := none
  velocity_max : Option FloatVal := none
  diameter_min : Option FloatVal := none
  diameter_max : Option FloatVal := none
  hazardous : Option Bool := none

/-- One conditional append of create_filters: a filter exactly when the
option is specified. -/
def optFilter {α : Type} (o : Option α) (mk : α → Filter) : List Filter :=
  match o with
  | none => []
  | some v => [mk v]

/-- create_filters (filters.py lines 147-229): each option that is not
None appends, in this fixed order, the filter combining the documented
comparator with the documented extraction. -/
def create_filters (o : FilterOptions) : List Filter :=
  optFilter o.date (fun d => .dateF .eq (.vdate d))
  ++ optFilter o.start_date (fun d => .dateF .ge (.vdate d))
  ++ optFilter o.end_date (fun d => .dateF .le (.vdate d))
  ++ optFilter o.distance_min (fun v => .approachF .ge (.vfloat v) .distance)
  ++ optFilter o.distance_max (fun v => .approachF .le (.vfloat v) .distance)
  ++ optFilter o.velocity_min (fun v => .approachF .ge (.vfloat v) .velocity)
  ++ optFilter o.velocity_max (fun v => .approachF .le (.vfloat v) .velocity)
  ++ optFilter o.diameter_min (fun v => .neoF .ge (.vfloat v) .diameter)
  ++ optFilter o.diameter_max (fun v => .neoF .le (.vfloat v) .diameter)
  ++ optFilter o.hazardous (fun b => .neoF .eq (.vbool b) .hazardous)

/-- The number of specified (non-None) options of a configuration. -/
def FilterOptions.countSpecified (o : FilterOptions) : Nat :=
  (if o.date.isSome then 1 else 0) + (if o.start_date.isSome then 1 else 0)
  + (if o.end_date.isSome then 1 else 0)
  + (if o.distance_min.isSome then 1 else 0)
  + (if o.distance_max.isSome then 1 else 0)
  + (if o.velocity_min.isSome then 1 else 0)
  + (if o.velocity_max.isSome then 1 else 0)
  + (if o.diameter_min.isSome then 1 else 0)
  + (if o.diameter_max.isSome then 1 else 0)
  + (if o.hazardous.isSome then 1 else 0)

/-- limit (filters.py lines 232-244): if n is 0 or None the sequence is
returned unchanged, otherwise itertools.islice yields its first n
elements.  The lazy sequence is embedded as the list of elements it
yields. -/
def limit {α : Type} (iterator : List α) (n : Option Nat) : List α :=
  match n with
  | none => iterator
  | some k => if k = 0 then iterator else iterator.take k

/-- Conjunction of a filter collection on one approach, short-circuiting
on the first failing filter; an exception raised by a filter propagates. -/
def satisfiesAll (fs : List Filter) (a : CloseApproach) : Except PyExc Bool :=
  match fs with
  | [] => .ok true
  | f :: rest => do
    let b ← f.call a
    if b then satisfiesAll rest a else pure false

/-- Modelled from the spec: NEODatabase.query lives in database.py, which
is not among the sources under verification.  The spec (section 4.1)
describes it as a lazy sequence over all stored close approaches in order,
yielding each approach that satisfies every filter in the collection,
evaluating filters per element with short-circuit on the first failure;
an exception raised during filter evaluation propagates to the consumer
and aborts the iteration. -/
def query (fs : List Filter) : List CloseApproach → Except PyExc (List CloseApproach)
  | [] => .ok []
  | a :: rest => do
    let b ← satisfiesAll fs a
    let tl ← query fs rest
    pure (if b then a :: tl else tl)

/-! Theorems. -/

/-- Reduction of the Except monad bind on a success value. -/
theorem ok_bind {ε α β : Type} (a : α) (f : α → Except ε β) :
    (Except.ok a >>= f : Except ε β) = f a := rfl

/-- Reduction of the Except monad bind on an error value. -/
theorem error_bind {ε α β : Type} (e : ε) (f : α → Except ε β) :
    (Except.error e >>= f : Except ε β) = Except.error e := rfl

/-- Reduction of the Except monad bind on a thrown exception. -/
theorem throw_bind {ε α β : Type} (e : ε) (f : α → Except ε β) :
    ((throw e : Except ε α) >>= f) = Except.error e := rfl

/-- C3: limit with n absent or n = 0 returns the sequence unchanged; for
every n = k > 0 it yields exactly the first k elements in their original
order, hence min k (length seq) elements, and its output depends only on
the first k elements of the upstream sequence (no over-consumption). -/
theorem limit_spec {α : Type} (seq : List α) :
    limit seq none = seq ∧ limit seq (some 0) = seq ∧
    ∀ k : ℕ, 0 < k →
      limit seq (some k) = seq.take k ∧
      (limit seq (some k)).length = min k seq.length ∧
      limit seq (some k) = limit (seq.take k) (some k) := by
  refine ⟨rfl, rfl, fun k hk => ?_⟩
  have hk0 : k ≠ 0 := Nat.pos_iff_ne_zero.mp hk
  simp [limit, hk0, List.length_take, List.take_take]

/-- Witness for C3 at a concrete sequence and bound. -/
theorem limit_spec_witness :
    limit [10, 20, 30] (some 2) = [10, 20, 30].take 2 ∧
    (limit [10, 20, 30] (some 2)).length = min 2 [10, 20, 30].length ∧
    limit [10, 20, 30] (some 2) = limit ([10, 20, 30].take 2) (some 2) :=
  (limit_spec [10, 20, 30]).2.2 2 (by decide)

/-- C6: a filter whose extraction strategy was not specialized (the base
AttributeFilter) raises UnsupportedCriterionError on every approach and
never returns a value. -/
theorem base_filter_raises (op : CmpOp) (v : FilterVal) (a : CloseApproach) :
    Filter.call (.base op v) a = .error .unsupportedCriterion := rfl

/-- C2 counterexample: on an approach whose neo reference is still None,
a NEO-attribute filter does not return false -- evaluating it raises an
AttributeError (getattr on None). -/
theorem neo_filter_unlinked_counterexample :
    Filter.call (.neoF .eq (.vbool true) .hazardous)
      { _designation := some "433", designation := none, time := none,
        distance := none, velocity := none, neo := none }
      = .error .attributeError ∧
    Filter.call (.neoF .eq (.vbool true) .hazardous)
      { _designation := some "433", designation := none, time := none,
        distance := none, velocity := none, neo := none }
      ≠ .ok false :=
  ⟨rfl, fun h => nomatch h⟩

/-- C2 amended: evaluating any NEO-attribute filter on an approach whose
neo reference is still None raises an AttributeError (aborting the
query) instead of treating the approach as failing the filter. -/
theorem neo_filter_unlinked_raises (op : CmpOp) (v : FilterVal)
    (attr : NeoAttr) (a : CloseApproach) (h : a.neo = none) :
    Filter.call (.neoF op v attr) a = .error .attributeError ∧
    ∀ rest, query [.neoF op v attr] (a :: rest) = .error .attributeError := by
  constructor
  · simp [Filter.call, Filter.get, h, error_bind]
  · intro rest
    simp [query, satisfiesAll, Filter.call, Filter.get, h, error_bind]

/-- Witness for C2's amended theorem at a concrete unlinked approach. -/
theorem neo_filter_unlinked_raises_witness :
    Filter.call (.neoF .ge (.vfloat (.num 1)) .diameter)
      { _designation := some "433", designation := none, time := none,
        distance := none, velocity := none, neo := none }
      = .error .attributeError ∧
    ∀ rest, query [.neoF .ge (.vfloat (.num 1)) .diameter]
      ({ _designation := some "433", designation := none, time := none,
         distance := none, velocity := none, neo := none } :: rest)
      = .error .attributeError :=
  neo_filter_unlinked_raises .ge (.vfloat (.num 1)) .diameter _ rfl

/-- C10: on an approach whose time attribute is None, every date filter
(whichever comparator the date, start_date or end_date options give it)
raises an AttributeError rather than returning a non-matching result,
and a query evaluating such a filter on that approach aborts with that
error. -/
theorem date_filter_absent_time_raises (op : CmpOp) (v : FilterVal)
    (a : CloseApproach) (h : a.time = none) :
    Filter.call (.dateF op v) a = .error .attributeError ∧
    ∀ rest, query [.dateF op v] (a :: rest) = .error .attributeError := by
  constructor
  · simp [Filter.call, Filter.get, h, error_bind]
  · intro rest
    simp [query, satisfiesAll, Filter.call, Filter.get, h, error_bind]

/-- Witness for C10 at a concrete approach with absent time. -/
theorem date_filter_absent_time_raises_witness :
    Filter.call (.dateF .eq (.vdate { year := 2020, month := 1, day := 1 }))
      { _designation := some "433", designation := none, time := none,
        distance := none, velocity := none, neo := none }
      = .error .attributeError ∧
    ∀ rest, query [.dateF .eq (.vdate { year := 2020, month := 1, day := 1 })]
      ({ _designation := some "433", designation := none, time := none,
         distance := none, velocity := none, neo := none } :: rest)
      = .error .attributeError :=
  date_filter_absent_time_raises .eq _ _ rfl

/-- C8: a diameter filter built by the diameter_min or diameter_max
option, evaluated on an approach linked to an NEO whose diameter is the
NaN sentinel, returns false whatever the reference value is. -/
theorem nan_diameter_never_matches (v : FloatVal) (a : CloseApproach)
    (n : NearEarthObject) (hneo : a.neo = some n) (hdia : n.diameter = .nan) :
    create_filters { diameter_min := some v } = [.neoF .ge (.vfloat v) .diameter] ∧
    create_filters { diameter_max := some v } = [.neoF .le (.vfloat v) .diameter] ∧
    Filter.call (.neoF .ge (.vfloat v) .diameter) a = .ok false ∧
    Filter.call (.neoF .le (.vfloat v) .diameter) a = .ok false := by
  refine ⟨rfl, rfl, ?_, ?_⟩ <;>
    · simp [Filter.call, Filter.get, Filter.op, Filter.value, hneo, hdia, ok_bind]
      cases v <;> rfl

/-- Witness for C8 at a concrete NaN-diameter NEO. -/
theorem nan_diameter_never_matches_witness :
    create_filters { diameter_min := some (.num 3) }
      = [.neoF .ge (.vfloat (.num 3)) .diameter] ∧
    create_filters { diameter_max := some (.num 3) }
      = [.neoF .le (.vfloat (.num 3)) .diameter] ∧
    Filter.call (.neoF .ge (.vfloat (.num 3)) .diameter)
      { _designation := some "433", designation := none, time := none,
        distance := none, velocity := none,
        neo := some { designation := some "433", name := none,
                      diameter := .nan, hazardous := false, approaches := [] } }
      = .ok false ∧
    Filter.call (.neoF .le (.vfloat (.num 3)) .diameter)
      { _designation := some "433", designation := none, time := none,
        distance := none, velocity := none,
        neo := some { designation := some "433", name := none,
                      diameter := .nan, hazardous := false, approaches := [] } }
      = .ok false :=
  nan_diameter_never_matches (.num 3) _ _ rfl rfl

/-- An optional filter contributes one element exactly when the option
is specified. -/
theorem optFilter_length {α : Type} (o : Option α) (mk : α → Filter) :
    (optFilter o mk).length = if o.isSome then 1 else 0 := by
  cases o <;> rfl

/-- C4: create_filters produces one filter per specified option and no
filter for an unspecified (None) option; with every option left at its
default it returns the empty collection, and hazardous := false still
produces a hazardous-equality filter (distinct from no filter at all). -/
theorem create_filters_specified_count :
    create_filters {} = [] ∧
    (∀ o : FilterOptions, (create_filters o).length = o.countSpecified) ∧
    (∀ b : Bool, create_filters { hazardous := some b }
      = [.neoF .eq (.vbool b) .hazardous]) ∧
    create_filters { hazardous := none } = [] := by
  refine ⟨rfl, fun o => ?_, fun b => rfl, rfl⟩
  simp [create_filters, FilterOptions.countSpecified, optFilter_length]
  omega

/-- C5, part one: a fully specified configuration compiles, in order, to
the ten documented filters: exact date equality, start_date as date ≥,
end_date as date ≤, distance bounds as ≥ and ≤ on distance, velocity
bounds as ≥ and ≤ on velocity, diameter bounds as ≥ and ≤ on the linked
NEO's diameter, and hazardous as an equality on the linked NEO's flag;
part two: each such filter evaluated on an approach computes
extracted-attribute OP reference-value with the reference value on the
right-hand side (for the date filters the extraction discards the
time-of-day component first). -/
theorem create_filters_compilation :
    (∀ (d sd ed : Date) (dmin dmax vmin vmax diamin diamax : FloatVal)
        (hz : Bool),
      create_filters
        { date := some d, start_date := some sd, end_date := some ed,
          distance_min := some dmin, distance_max := some dmax,
          velocity_min := some vmin, velocity_max := some vmax,
          diameter_min := some diamin, diameter_max := some diamax,
          hazardous := some hz }
      = [.dateF .eq (.vdate d), .dateF .ge (.vdate sd), .dateF .le (.vdate ed),
         .approachF .ge (.vfloat dmin) .distance,
         .approachF .le (.vfloat dmax) .distance,
         .approachF .ge (.vfloat vmin) .velocity,
         .approachF .le (.vfloat vmax) .velocity,
         .neoF .ge (.vfloat diamin) .diameter,
         .neoF .le (.vfloat diamax) .diameter,
         .neoF .eq (.vbool hz) .hazardous]) ∧
    (∀ (d : Date) (a : CloseApproach) (t : DateTime), a.time = some t →
      Filter.call (.dateF .eq (.vdate d)) a = .ok (decide (t.date = d)) ∧
      Filter.call (.dateF .ge (.vdate d)) a = .ok (Date.leB d t.date) ∧
      Filter.call (.dateF .le (.vdate d)) a = .ok (Date.leB t.date d)) ∧
    (∀ (v f : FloatVal) (a : CloseApproach), a.distance = some f →
      Filter.call (.approachF .ge (.vfloat v) .distance) a = .ok (f.fge v) ∧
      Filter.call (.approachF .le (.vfloat v) .distance) a = .ok (f.fle v)) ∧
    (∀ (v f : FloatVal) (a : CloseApproach), a.velocity = some f →
      Filter.call (.approachF .ge (.vfloat v) .velocity) a = .ok (f.fge v) ∧
      Filter.call (.approachF .le (.vfloat v) .velocity) a = .ok (f.fle v)) ∧
    (∀ (v : FloatVal) (a : CloseApproach) (n : NearEarthObject),
        a.neo = some n →
      Filter.call (.neoF .ge (.vfloat v) .diameter) a = .ok (n.diameter.fge v) ∧
      Filter.call (.neoF .le (.vfloat v) .diameter) a = .ok (n.diameter.fle v)) ∧
    (∀ (b : Bool) (a : CloseApproach) (n : NearEarthObject), a.neo = some n →
      Filter.call (.neoF .eq (.vbool b) .hazardous) a
        = .ok (decide (n.hazardous = b))) := by
  refine ⟨fun _ _ _ _ _ _ _ _ _ _ => rfl, ?_, ?_, ?_, ?_, ?_⟩
  · intro d a t h
    refine ⟨?_, ?_, ?_⟩ <;>
      simp [Filter.call, Filter.get, Filter.op, Filter.value, h, ok_bind,
        applyCmp, fvEq]
  · intro v f a h
    constructor <;>
      · simp [Filter.call, Filter.get, Filter.op, Filter.value, h, ok_bind,
          optFloatVal]
        cases v <;> cases f <;> rfl
  · intro v f a h
    constructor <;>
      · simp [Filter.call, Filter.get, Filter.op, Filter.value, h, ok_bind,
          optFloatVal]
        cases v <;> cases f <;> rfl
  · intro v a n h
    constructor <;>
      · simp [Filter.call, Filter.get, Filter.op, Filter.value, h, ok_bind]
        cases v <;> cases hn : n.diameter <;> rfl
  · intro b a n h
    simp [Filter.call, Filter.get, Filter.op, Filter.value, h, ok_bind,
      applyCmp, fvEq, FilterVal.toNum, FloatVal.feq]
    cases b <;> cases hn : n.hazardous <;> simp

/-- Witness for C5 at concrete dates, floats and approaches. -/
theorem create_filters_compilation_witness :
    Filter.call (.dateF .eq (.vdate { year := 2020, month := 1, day := 1 }))
      { _designation := some "433", designation := none,
        time := some { year := 2020, month := 1, day := 1, hour := 3, minute := 4 },
        distance := some (.num 1), velocity := some (.num 2), neo := none }
      = .ok (decide
          (({ year := 2020, month := 1, day := 1, hour := 3, minute := 4 } :
            DateTime).date = { year := 2020, month := 1, day := 1 })) ∧
    Filter.call (.dateF .ge (.vdate { year := 2020, month := 1, day := 1 }))
      { _designation := some "433", designation := none,
        time := some { year := 2020, month := 1, day := 1, hour := 3, minute := 4 },
        distance := some (.num 1), velocity := some (.num 2), neo := none }
      = .ok (Date.leB { year := 2020, month := 1, day := 1 }
          ({ year := 2020, month := 1, day := 1, hour := 3, minute := 4 } :
            DateTime).date) ∧
    Filter.call (.dateF .le (.vdate { year := 2020, month := 1, day := 1 }))
      { _designation := some "433", designation := none,
        time := some { year := 2020, month := 1, day := 1, hour := 3, minute := 4 },
        distance := some (.num 1), velocity := some (.num 2), neo := none }
      = .ok (Date.leB
          ({ year := 2020, month := 1, day := 1, hour := 3, minute := 4 } :
            DateTime).date { year := 2020, month := 1, day := 1 }) :=
  create_filters_compilation.2.1 { year := 2020, month := 1, day := 1 }
    { _designation := some "433", designation := none,
      time := some { year := 2020, month := 1, day := 1, hour := 3, minute := 4 },
      distance := some (.num 1), velocity := some (.num 2), neo := none }
    { year := 2020, month := 1, day := 1, hour := 3, minute := 4 } rfl

/-- C1 counterexample: constructing a CloseApproach whose distance field
is present but unparseable raises a ValueError instead of substituting
None -- the only exception caught around float(info) there is KeyError,
so construction does not succeed for a malformed distance. -/
theorem capp_malformed_distance_raises :
    CloseApproach.init
      { designation := some (.pystr "433"),
        time := some (.pystr "2020-Jan-01 00:00"),
        distance := some (.pystr "abc"), velocity := some (.pystr "5.0") }
      = .error .valueError := rfl

/-- C1 amended: construction succeeds with the attribute set to None
whenever the time, distance or velocity field is absent; an unparseable
time also yields None (the parse helper is absent-tolerant) and a None
velocity yields None (its TypeError is caught); but a present distance
that float() rejects raises (ValueError for an unparseable string,
TypeError for None), and an unparseable velocity string raises a
ValueError. -/
theorem capp_init_absent_tolerant :
    (∀ dsg t, ∃ c, CloseApproach.init
        { designation := dsg, time := t, distance := none, velocity := none }
        = .ok c ∧ c.distance = none ∧ c.velocity = none
        ∧ (t = none → c.time = none)) ∧
    (∀ dsg tv, cd_to_datetime tv = none →
      ∃ c, CloseApproach.init
        { designation := dsg, time := some tv, distance := none,
          velocity := none } = .ok c ∧ c.time = none) ∧
    (∀ dsg t, ∃ c, CloseApproach.init
        { designation := dsg, time := t, distance := none,
          velocity := some .pynone } = .ok c ∧ c.velocity = none) ∧
    (∀ dsg t vv s, pyParseFloat s = none → CloseApproach.init
        { designation := dsg, time := t, distance := some (.pystr s),
          velocity := vv } = .error .valueError) ∧
    (∀ dsg t vv, CloseApproach.init
        { designation := dsg, time := t, distance := some .pynone,
          velocity := vv } = .error .typeError) ∧
    (∀ dsg t s, pyParseFloat s = none → CloseApproach.init
        { designation := dsg, time := t, distance := none,
          velocity := some (.pystr s) } = .error .valueError) := by
  refine ⟨?_, ?_, ?_, ?_, ?_, ?_⟩
  · intro dsg t
    exact ⟨_, rfl, rfl, rfl, fun ht => by subst ht; rfl⟩
  · intro dsg tv h
    exact ⟨_, rfl, h⟩
  · intro dsg t
    exact ⟨_, rfl, rfl⟩
  · intro dsg t vv s h
    simp [CloseApproach.init, cappDistanceOf, pyFloat, h, error_bind]
  · intro dsg t vv
    exact rfl
  · intro dsg t s h
    simp [CloseApproach.init, cappDistanceOf, cappVelocityOf, pyFloat, h,
      ok_bind, error_bind]

/-- Witness for C1's amended theorem at concrete inputs. -/
theorem capp_init_absent_tolerant_witness :
    (∃ c, CloseApproach.init
        { designation := none, time := none, distance := none,
          velocity := none } = .ok c ∧ c.distance = none ∧ c.velocity = none
        ∧ ((none : Option PyVal) = none → c.time = none)) ∧
    CloseApproach.init
        { designation := none, time := none, distance := some (.pystr "abc"),
          velocity := none } = .error .valueError :=
  ⟨capp_init_absent_tolerant.1 none none,
   capp_init_absent_tolerant.2.2.2.1 none none none "abc" (by decide)⟩

/-- C7: on CSV-shaped input (each field a string or absent) a
NearEarthObject is always constructed and retained: the designation is
kept verbatim, an absent or empty name becomes None, an absent or
unparseable diameter becomes the NaN sentinel, the hazardous flag is
true exactly when the input flag is the string Y, and the approach
collection starts empty. -/
theorem neo_init_defaults (d n dia h : Option String) :
    ∃ neo, NearEarthObject.init
        { designation := d.map .pystr, name := n.map .pystr,
          diameter := dia.map .pystr, hazardous := h.map .pystr }
      = .ok neo
      ∧ neo.designation = d
      ∧ (neo.name = none ↔ (n = none ∨ n = some ""))
      ∧ (dia = none → neo.diameter = .nan)
      ∧ (∀ s, dia = some s → pyParseFloat s = none → neo.diameter = .nan)
      ∧ (neo.hazardous = true ↔ h = some "Y")
      ∧ neo.approaches = [] := by
  have hdia : ∃ f, neoDiameterOf (dia.map .pystr) = .ok f
      ∧ (dia = none → f = .nan)
      ∧ (∀ s, dia = some s → pyParseFloat s = none → f = .nan) := by
    cases dia with
    | none => exact ⟨.nan, rfl, fun _ => rfl, by simp⟩
    | some s =>
      cases hs : pyParseFloat s with
      | none =>
        refine ⟨.nan, by simp [neoDiameterOf, pyFloat, hs], by simp, ?_⟩
        intro s2 hs2 hps
        rfl
      | some f =>
        refine ⟨f, by simp [neoDiameterOf, pyFloat, hs], by simp, ?_⟩
        intro s2 hs2 hps
        rw [Option.some.injEq] at hs2
        subst hs2
        simp [hs] at hps
  obtain ⟨f, hf, hf1, hf2⟩ := hdia
  have hinit : NearEarthObject.init
      { designation := d.map .pystr, name := n.map .pystr,
        diameter := dia.map .pystr, hazardous := h.map .pystr }
      = .ok { designation := neoDesignationOf (d.map .pystr),
              name := neoNameOf (n.map .pystr), diameter := f,
              hazardous := neoHazardousOf (h.map .pystr),
              approaches := [] } := by
    simp only [NearEarthObject.init]
    rw [hf]
    rfl
  refine ⟨_, hinit, ?_, ?_, hf1, hf2, ?_, rfl⟩
  · cases d <;> rfl
  · cases n with
    | none => simp [neoNameOf]
    | some s =>
      rcases eq_or_ne s "" with hs | hs <;>
        simp [neoNameOf, pyEq, hs]
  · cases h with
    | none => simp [neoHazardousOf]
    | some s => simp [neoHazardousOf, pyEq]

/-- Witness for C7 at a concrete row with empty name, absent diameter
and a non-Y hazardous flag. -/
theorem neo_init_defaults_witness :
    ∃ neo, NearEarthObject.init
        { designation := (some "2020 BS").map .pystr,
          name := (some "").map .pystr,
          diameter := (none : Option String).map .pystr,
          hazardous := (some "N").map .pystr }
      = .ok neo ∧ neo.name = none ∧ neo.diameter = .nan
      ∧ neo.hazardous = false := by
  obtain ⟨neo, h1, h2, h3, h4, h5, h6, h7⟩ :=
    neo_init_defaults (some "2020 BS") (some "") none (some "N")
  refine ⟨neo, h1, h3.mpr (Or.inr rfl), h4 rfl, ?_⟩
  cases hb : neo.hazardous with
  | false => rfl
  | true => simp [hb] at h6

/-- C9: a CloseApproach constructed without a designation field never
creates the private _designation attribute and instead creates a public
designation attribute holding None; a subsequent access to _designation,
such as computing the object's string representation, raises an
AttributeError. -/
theorem capp_missing_designation (info : ApproachInfo) (c : CloseApproach)
    (hd : info.designation = none) (h : CloseApproach.init info = .ok c) :
    c._designation = none ∧ c.designation = some .pynone ∧
    c.str_ = .error .attributeError := by
  cases hdist : cappDistanceOf info.distance with
  | error e => simp [CloseApproach.init, hdist, error_bind] at h
  | ok dv =>
    cases hvel : cappVelocityOf info.velocity with
    | error e => simp [CloseApproach.init, hdist, hvel, ok_bind, error_bind] at h
    | ok vv =>
      simp only [CloseApproach.init, hdist, hvel, ok_bind, error_bind,
        pure, Except.pure, Except.ok.injEq] at h
      subst h
      refine ⟨?_, ?_, ?_⟩
      · simp [cappDesignationOf, hd]
      · simp [cappDesignationOf, hd]
      · simp [CloseApproach.str_, cappDesignationOf, hd, throw_bind]

/-- Witness for C9 at the all-absent constructor input. -/
theorem capp_missing_designation_witness :
    ({ _designation := none, designation := some .pynone, time := none,
       distance := none, velocity := none, neo := none } :
      CloseApproach)._designation = none ∧
    ({ _designation := none, designation := some .pynone, time := none,
       distance := none, velocity := none, neo := none } :
      CloseApproach).designation = some .pynone ∧
    ({ _designation := none, designation := some .pynone, time := none,
       distance := none, velocity := none, neo := none } :
      CloseApproach).str_ = .error .attributeError :=
  capp_missing_designation
    { designation := none, time := none, distance := none, velocity := none }
    _ rfl rfl

end NeoQuery
